import Mathlib

/-!
Shallow embedding of the `dyson_cloud` Home Assistant custom integration:

* `custom_components/dyson_cloud/__init__.py`
  (`async_setup_entry`, `async_unload_entry`), and
* `custom_components/dyson_cloud/config_flow.py`
  (`DysonCloudConfigFlow` and its steps `user`, `email`, `email_otp`,
  `mobile`, `mobile_otp`).

External SDK calls (`login_email_otp`, `login_mobile_otp`, the verification
callables, `account.devices`) are modelled as environment inputs: a call's
behaviour is a value (success payload or raised exception) supplied through
an environment record, and each step is a pure function of the session
state, the user input and that environment.
-/

/-- The libdyson SDK exceptions named in the integration. -/
inductive DysonError where
  | networkError
  | invalidAccountStatus
  | otpTooFrequently
  | loginFailure
deriving DecidableEq

/-- An exception escaping a step handler to the host: a libdyson exception
left uncaught by the step's `try`/`except`, or a `TypeError` from calling a
value that is not callable with the supplied arguments. -/
inductive PyExc where
  | dyson (e : DysonError)
  | typeError
deriving DecidableEq

/-- Opaque auth payload returned by a verification callable. -/
abbrev AuthInfo := String

/-- Opaque device descriptor returned by `account.devices()`. -/
abbrev Device := String

/-- Verification callable returned by `login_email_otp`: takes the OTP code
and the password, returns auth info or raises. -/
abbrev EmailVerify := String → String → Except DysonError AuthInfo

/-- Verification callable returned by `login_mobile_otp`: takes the OTP
code, returns auth info or raises. -/
abbrev MobileVerify := String → Except DysonError AuthInfo

/-- The data dict of a created entry: `{CONF_REGION: ..., CONF_AUTH: ...}`.
The region is whatever `self._region` holds at creation time (an `Option`,
since the field is initialised to `None`). -/
structure EntryData where
  region : Option String
  auth : AuthInfo
deriving DecidableEq

/-- A Home Assistant config entry as this integration sees one: its id, its
unique id (set only by the email branch), its title and its data. -/
structure ConfigEntry where
  entry_id : String
  unique_id : Option String
  title : String
  data : EntryData
deriving DecidableEq

/-- The value stored in `self._verify`: the callable returned by the login
initiation call of whichever branch ran. -/
inductive VerifyFn where
  | emailVerify (f : EmailVerify)
  | mobileVerify (f : MobileVerify)

/-- The session fields of `DysonCloudConfigFlow.__init__`: `_region`,
`_mobile`, `_email`, `_verify`, all initialised to `None`. -/
structure FlowState where
  _region : Option String
  _mobile : Option String
  _email : Option String
  _verify : Option VerifyFn

/-- The freshly initialised flow instance. -/
def initFlowState : FlowState :=
  { _region := none, _mobile := none, _email := none, _verify := none }

/-- What a step handler returns to the host: a redisplayed form (step id
plus its `errors` dict), an abort, a created entry, or an uncaught
exception propagating out of the handler. -/
inductive FlowResult where
  | show_form (step_id : String) (errors : List (String × String))
  | abort (reason : String)
  | create_entry (title : String) (data : EntryData)
  | uncaught (e : PyExc)
deriving DecidableEq

/-- Python `f"{x}"` on an optional value: `str(None)` is `"None"`. -/
def pyStr : Option String → String
  | some s => s
  | none => "None"

/-- Environment of the email step: the current config entries
(`self._async_current_entries()`) and the behaviour of
`DysonAccount().login_email_otp(email, region)`. -/
structure EmailEnv where
  current_entries : List ConfigEntry
  login_email_otp : String → Option String → Except DysonError EmailVerify

/-- Environment of the mobile step: the current config entries (visible to
the flow but never consulted by this step) and the behaviour of
`DysonAccountCN().login_mobile_otp(mobile)`. -/
structure MobileEnv where
  current_entries : List ConfigEntry
  login_mobile_otp : String → Except DysonError MobileVerify

/-- `async_step_email_otp`: with no input, show the `email_otp` form; with
input, call `self._verify(info[CONF_OTP], info[CONF_PASSWORD])`, mapping
`DysonLoginFailure` to the form error `invalid_auth` and otherwise creating
the entry titled `f"{self._email} ({self._region})"`. -/
structure EmailOtpInput where
  otp : String
  password : String

def async_step_email_otp (s : FlowState) (info : Option EmailOtpInput) :
    FlowState × FlowResult :=
  match info with
  | none => (s, FlowResult.show_form "email_otp" [])
  | some i =>
    match s._verify with
    | some (VerifyFn.emailVerify f) =>
      match f i.otp i.password with
      | Except.error DysonError.loginFailure =>
          (s, FlowResult.show_form "email_otp" [("base", "invalid_auth")])
      | Except.error e => (s, FlowResult.uncaught (PyExc.dyson e))
      | Except.ok auth_info =>
          (s, FlowResult.create_entry (pyStr s._email ++ " (" ++ pyStr s._region ++ ")")
            { region := s._region, auth := auth_info })
    | _ => (s, FlowResult.uncaught PyExc.typeError)

/-- `async_step_mobile_otp`: with no input, show the `mobile_otp` form;
with input, call `self._verify(info[CONF_OTP])`, mapping
`DysonLoginFailure` to the form error `invalid_otp` and otherwise creating
the entry titled `f"{self._mobile} ({self._region})"`. -/
structure MobileOtpInput where
  otp : String

def async_step_mobile_otp (s : FlowState) (info : Option MobileOtpInput) :
    FlowState × FlowResult :=
  match info with
  | none => (s, FlowResult.show_form "mobile_otp" [])
  | some i =>
    match s._verify with
    | some (VerifyFn.mobileVerify f) =>
      match f i.otp with
      | Except.error DysonError.loginFailure =>
          (s, FlowResult.show_form "mobile_otp" [("base", "invalid_otp")])
      | Except.error e => (s, FlowResult.uncaught (PyExc.dyson e))
      | Except.ok auth_info =>
          (s, FlowResult.create_entry (pyStr s._mobile ++ " (" ++ pyStr s._region ++ ")")
            { region := s._region, auth := auth_info })
    | _ => (s, FlowResult.uncaught PyExc.typeError)

/-- `async_step_email`: with no input, show the `email` form. With input,
compute `unique_id = f"global_{email}"`; the explicit loop over
`self._async_current_entries()` aborts with `already_configured` on a
matching unique id; `self._abort_if_unique_id_configured()` (after
`async_set_unique_id`) repeats the same host-side check. Then
`login_email_otp` runs, with `DysonNetworkError` mapped to `cannot_connect`
and `DysonInvalidAccountStatus` to `email_not_registered` on the
redisplayed `email` form; on success the callable is stored in `_verify`,
the email in `_email`, and `async_step_email_otp()` is entered with no
input. -/
structure EmailInput where
  email : String

def async_step_email (s : FlowState) (info : Option EmailInput) (env : EmailEnv) :
    FlowState × FlowResult :=
  match info with
  | none => (s, FlowResult.show_form "email" [])
  | some i =>
    let email := i.email
    let unique_id := "global_" ++ email
    -- the explicit `for entry in self._async_current_entries()` loop
    if (env.current_entries.any fun e => e.unique_id == some unique_id) then
      (s, FlowResult.abort "already_configured")
    -- `await self.async_set_unique_id(unique_id)` followed by
    -- `self._abort_if_unique_id_configured()`: the host aborts on the same
    -- condition over the same entry list
    else if (env.current_entries.any fun e => e.unique_id == some unique_id) then
      (s, FlowResult.abort "already_configured")
    else
      match env.login_email_otp email s._region with
      | Except.error DysonError.networkError =>
          (s, FlowResult.show_form "email" [("base", "cannot_connect")])
      | Except.error DysonError.invalidAccountStatus =>
          (s, FlowResult.show_form "email" [("base", "email_not_registered")])
      | Except.error e => (s, FlowResult.uncaught (PyExc.dyson e))
      | Except.ok verify =>
          async_step_email_otp
            { s with _verify := some (VerifyFn.emailVerify verify), _email := some email }
            none

/-- Python `s.startswith(p)`: `p`'s character sequence is a prefix of
`s`'s. -/
def pyStartsWith (s p : String) : Bool :=
  p.data.isPrefixOf s.data

/-- The inline normalisation of `async_step_mobile`: a number not starting
with `"+"` gets `"+86"` prepended. -/
def normalizeMobile (m : String) : String :=
  if pyStartsWith m "+" then m else "+86" ++ m

/-- `async_step_mobile`: with no input, show the `mobile` form. With input,
normalise the number, then call `login_mobile_otp`, with
`DysonOTPTooFrequently` mapped to `otp_too_frequent` on the redisplayed
`mobile` form; on success the callable is stored in `_verify`, the
normalised number in `_mobile`, and `async_step_mobile_otp()` is entered
with no input. No uniqueness check appears on this branch. -/
structure MobileInput where
  mobile : String

def async_step_mobile (s : FlowState) (info : Option MobileInput) (env : MobileEnv) :
    FlowState × FlowResult :=
  match info with
  | none => (s, FlowResult.show_form "mobile" [])
  | some i =>
    let mobile := normalizeMobile i.mobile
    match env.login_mobile_otp mobile with
    | Except.error DysonError.otpTooFrequently =>
        (s, FlowResult.show_form "mobile" [("base", "otp_too_frequent")])
    | Except.error e => (s, FlowResult.uncaught (PyExc.dyson e))
    | Except.ok verify =>
        async_step_mobile_otp
          { s with _verify := some (VerifyFn.mobileVerify verify), _mobile := some mobile }
          none

/-- `async_step_user`: with no input, show the `user` form; with input,
store the region and route to `async_step_mobile()` when it equals `"CN"`,
else to `async_step_email()`. -/
structure UserInput where
  region : String

def async_step_user (s : FlowState) (user_input : Option UserInput)
    (eenv : EmailEnv) (menv : MobileEnv) : FlowState × FlowResult :=
  match user_input with
  | none => (s, FlowResult.show_form "user" [])
  | some i =>
    let s2 := { s with _region := some i.region }
    if i.region = "CN" then async_step_mobile s2 none menv
    else async_step_email s2 none eenv

/-- The account client constructed by `async_setup_entry`:
`DysonAccountCN(auth)` or `DysonAccount(auth)`. -/
inductive Account where
  | dysonAccountCN (auth : AuthInfo)
  | dysonAccount (auth : AuthInfo)
deriving DecidableEq

/-- The record stored in `hass.data[DOMAIN][entry.entry_id]`:
`{DATA_ACCOUNT: account, DATA_DEVICES: devices}`. -/
structure StoredEntry where
  account : Account
  devices : List Device
deriving DecidableEq

/-- Environment of `async_setup_entry`: the outcome of the blocking
`account.devices()` call. -/
structure SetupEnv where
  devices_result : Except DysonError (List Device)

/-- One `hass.config_entries.flow.async_init` request emitted during setup:
target domain, context source and the device descriptor passed as data. -/
structure DiscoveryInit where
  domain : String
  source : String
  data : Device
deriving DecidableEq

/-- How `async_setup_entry` ends: normal return `True`, a raised
`ConfigEntryNotReady`, or some other exception propagating. -/
inductive SetupOutcome where
  | ok
  | configEntryNotReady
  | uncaught (e : DysonError)
deriving DecidableEq

/-- Everything observable about one `async_setup_entry` invocation: its
outcome, the discovery flows it initiated, and `hass.data[DOMAIN]` after
it ran. -/
structure SetupEffects where
  outcome : SetupOutcome
  discovery_flows : List DiscoveryInit
  new_data : List (String × StoredEntry)

/-- Python dict assignment `m[k] = v` on the `hass.data[DOMAIN]` store,
modelled on an association list. -/
def storeSet (m : List (String × StoredEntry)) (k : String) (v : StoredEntry) :
    List (String × StoredEntry) :=
  match m with
  | [] => [(k, v)]
  | (k2, v2) :: rest => if k2 = k then (k, v) :: rest else (k2, v2) :: storeSet rest k v

/-- Python dict lookup `m.get(k)` on the `hass.data[DOMAIN]` store. -/
def storeGet (m : List (String × StoredEntry)) (k : String) : Option StoredEntry :=
  match m with
  | [] => none
  | (k2, v) :: rest => if k2 = k then some v else storeGet rest k

/-- `async_setup_entry`: build the region-specific account client from the
entry's stored data, call `account.devices()` — `DysonNetworkError` raises
`ConfigEntryNotReady`, anything else raised propagates — then initiate one
discovery flow per device (domain `dyson_local`, source `discovery`, the
device as data) and store the account plus device list under the entry's
id. -/
def async_setup_entry (hassData : List (String × StoredEntry)) (entry : ConfigEntry)
    (env : SetupEnv) : SetupEffects :=
  let account := if entry.data.region = some "CN" then Account.dysonAccountCN entry.data.auth
                 else Account.dysonAccount entry.data.auth
  match env.devices_result with
  | Except.error DysonError.networkError =>
      { outcome := SetupOutcome.configEntryNotReady, discovery_flows := [], new_data := hassData }
  | Except.error e =>
      { outcome := SetupOutcome.uncaught e, discovery_flows := [], new_data := hassData }
  | Except.ok devices =>
      { outcome := SetupOutcome.ok
        discovery_flows := devices.map fun d =>
          { domain := "dyson_local", source := "discovery", data := d }
        new_data := storeSet hassData entry.entry_id { account := account, devices := devices } }

/-- `async_unload_entry`: `return True` with no other effect. -/
def async_unload_entry (hassData : List (String × StoredEntry)) (_entry : ConfigEntry) :
    (List (String × StoredEntry)) × Bool :=
  (hassData, true)

/-- Dict assignment followed by lookup of the same key yields the assigned
value. -/
theorem storeGet_storeSet (m : List (String × StoredEntry)) (k : String) (v : StoredEntry) :
    storeGet (storeSet m k v) k = some v := by
  induction m with
  | nil => simp [storeSet, storeGet]
  | cons hd tl ih =>
    obtain ⟨k2, v2⟩ := hd
    by_cases h : k2 = k
    · simp [storeSet, storeGet, h]
    · simp [storeSet, storeGet, h, ih]

/-- C3: whenever the device-listing call raises `DysonNetworkError`,
`async_setup_entry` ends by raising `ConfigEntryNotReady` (the host's
not-ready signal, so the entry is retried later), initiates no discovery
flow and stores no per-entry state in that invocation. -/
theorem network_error_marks_entry_not_ready (hassData : List (String × StoredEntry))
    (entry : ConfigEntry) (env : SetupEnv)
    (h : env.devices_result = Except.error DysonError.networkError) :
    (async_setup_entry hassData entry env).outcome = SetupOutcome.configEntryNotReady
  ∧ (async_setup_entry hassData entry env).discovery_flows = []
  ∧ (async_setup_entry hassData entry env).new_data = hassData := by
  refine ⟨?_, ?_, ?_⟩ <;> simp [async_setup_entry, h]

theorem network_error_marks_entry_not_ready_witness :
    (async_setup_entry []
        { entry_id := "e1", unique_id := none, title := "t"
          data := { region := some "GB", auth := "a" } }
        { devices_result := Except.error DysonError.networkError }).outcome
      = SetupOutcome.configEntryNotReady
  ∧ (async_setup_entry []
        { entry_id := "e1", unique_id := none, title := "t"
          data := { region := some "GB", auth := "a" } }
        { devices_result := Except.error DysonError.networkError }).discovery_flows = []
  ∧ (async_setup_entry []
        { entry_id := "e1", unique_id := none, title := "t"
          data := { region := some "GB", auth := "a" } }
        { devices_result := Except.error DysonError.networkError }).new_data = [] :=
  network_error_marks_entry_not_ready []
    { entry_id := "e1", unique_id := none, title := "t"
      data := { region := some "GB", auth := "a" } }
    { devices_result := Except.error DysonError.networkError } rfl

/-- C4: submitting an email for which some existing entry has unique id
`global_<email>` aborts the flow with `already_configured`; the result is
the same abort whatever the behaviour of `login_email_otp`, so the login
API is not consulted in that invocation. -/
theorem duplicate_email_aborts_before_login (s : FlowState) (email : String) (env : EmailEnv)
    (hdup : (env.current_entries.any fun e => e.unique_id == some ("global_" ++ email)) = true) :
    async_step_email s (some { email := email }) env = (s, FlowResult.abort "already_configured")
  ∧ ∀ g, async_step_email s (some { email := email })
      { current_entries := env.current_entries, login_email_otp := g }
      = (s, FlowResult.abort "already_configured") := by
  refine ⟨?_, fun g => ?_⟩ <;> simp [async_step_email, hdup]

theorem duplicate_email_aborts_before_login_witness :
    async_step_email initFlowState (some { email := "a@b.c" })
      { current_entries := [{ entry_id := "e1", unique_id := some "global_a@b.c", title := "t"
                              data := { region := some "GB", auth := "x" } }]
        login_email_otp := fun _ _ => Except.error DysonError.networkError }
      = (initFlowState, FlowResult.abort "already_configured")
  ∧ ∀ g, async_step_email initFlowState (some { email := "a@b.c" })
      { current_entries := [{ entry_id := "e1", unique_id := some "global_a@b.c", title := "t"
                              data := { region := some "GB", auth := "x" } }]
        login_email_otp := g }
      = (initFlowState, FlowResult.abort "already_configured") :=
  duplicate_email_aborts_before_login initFlowState "a@b.c"
    { current_entries := [{ entry_id := "e1", unique_id := some "global_a@b.c", title := "t"
                            data := { region := some "GB", auth := "x" } }]
      login_email_otp := fun _ _ => Except.error DysonError.networkError }
    (by decide)

/-- C5: when the listing call returns a device list, `async_setup_entry`
initiates exactly one discovery flow per returned device descriptor, in
order and carrying that descriptor as its data (so every device gets one
initiation, none more), each targeting the `dyson_local` domain with
source `discovery`; this holds for lists of any length including the
empty one. -/
theorem one_discovery_flow_per_device (hassData : List (String × StoredEntry))
    (entry : ConfigEntry) (env : SetupEnv) (devs : List Device)
    (h : env.devices_result = Except.ok devs) :
    ((async_setup_entry hassData entry env).discovery_flows.map fun i => i.data) = devs
  ∧ (async_setup_entry hassData entry env).discovery_flows.length = devs.length
  ∧ ∀ i ∈ (async_setup_entry hassData entry env).discovery_flows,
      i.domain = "dyson_local" ∧ i.source = "discovery" := by
  refine ⟨?_, ?_, ?_⟩
  · simp [async_setup_entry, h, Function.comp_def]
  · simp [async_setup_entry, h]
  · intro i hi
    simp [async_setup_entry, h, List.mem_map] at hi
    obtain ⟨d, _, rfl⟩ := hi
    exact ⟨rfl, rfl⟩

theorem one_discovery_flow_per_device_witness :
    ((async_setup_entry []
        { entry_id := "e1", unique_id := none, title := "t"
          data := { region := some "GB", auth := "a" } }
        { devices_result := Except.ok ["dev1", "dev2"] }).discovery_flows.map fun i => i.data)
      = ["dev1", "dev2"]
  ∧ (async_setup_entry []
        { entry_id := "e1", unique_id := none, title := "t"
          data := { region := some "GB", auth := "a" } }
        { devices_result := Except.ok ["dev1", "dev2"] }).discovery_flows.length
      = (["dev1", "dev2"] : List Device).length
  ∧ ∀ i ∈ (async_setup_entry []
        { entry_id := "e1", unique_id := none, title := "t"
          data := { region := some "GB", auth := "a" } }
        { devices_result := Except.ok ["dev1", "dev2"] }).discovery_flows,
      i.domain = "dyson_local" ∧ i.source = "discovery" :=
  one_discovery_flow_per_device []
    { entry_id := "e1", unique_id := none, title := "t"
      data := { region := some "GB", auth := "a" } }
    { devices_result := Except.ok ["dev1", "dev2"] } ["dev1", "dev2"] rfl

/-- C6: on the `user` step, submitting a region stores it and routes to
the mobile step exactly when the region is `"CN"`, and to the email step
exactly otherwise. -/
theorem user_step_routes_by_region (s : FlowState) (r : String)
    (eenv : EmailEnv) (menv : MobileEnv) :
    ((async_step_user s (some { region := r }) eenv menv).2 = FlowResult.show_form "mobile" []
        ↔ r = "CN")
  ∧ ((async_step_user s (some { region := r }) eenv menv).2 = FlowResult.show_form "email" []
        ↔ r ≠ "CN")
  ∧ (async_step_user s (some { region := r }) eenv menv).1._region = some r := by
  by_cases h : r = "CN" <;>
    simp [async_step_user, async_step_mobile, async_step_email, h]

/-- C7: when the stored email verification callable succeeds on the
submitted OTP and password, the step returns a created entry with data
exactly `{region := <stored region>, auth := <returned auth payload>}` and
title exactly `"<email> (<region>)"` for the session's stored email and
region. -/
theorem email_otp_success_creates_entry (s : FlowState) (f : EmailVerify)
    (em r otp pw auth : String)
    (hv : s._verify = some (VerifyFn.emailVerify f))
    (he : s._email = some em) (hr : s._region = some r)
    (hf : f otp pw = Except.ok auth) :
    async_step_email_otp s (some { otp := otp, password := pw }) =
      (s, FlowResult.create_entry (em ++ " (" ++ r ++ ")")
        { region := some r, auth := auth }) := by
  simp [async_step_email_otp, hv, hf, he, hr, pyStr]

theorem email_otp_success_creates_entry_witness :
    async_step_email_otp
      { _region := some "GB", _mobile := none, _email := some "user@example.com"
        _verify := some (VerifyFn.emailVerify fun _ _ => Except.ok "AUTH") }
      (some { otp := "123456", password := "pw" })
    = ({ _region := some "GB", _mobile := none, _email := some "user@example.com"
         _verify := some (VerifyFn.emailVerify fun _ _ => Except.ok "AUTH") },
       FlowResult.create_entry "user@example.com (GB)"
         { region := some "GB", auth := "AUTH" }) :=
  email_otp_success_creates_entry
    { _region := some "GB", _mobile := none, _email := some "user@example.com"
      _verify := some (VerifyFn.emailVerify fun _ _ => Except.ok "AUTH") }
    (fun _ _ => Except.ok "AUTH") "user@example.com" "GB" "123456" "pw" "AUTH"
    rfl rfl rfl rfl

/-- C8: when the listing call succeeds, `async_setup_entry` returns
normally and stores, under the entry's id, the region-specific account
client — `DysonAccountCN(auth)` when the stored region is `"CN"`,
`DysonAccount(auth)` otherwise — together with the returned device
list. -/
theorem setup_stores_account_and_devices (hassData : List (String × StoredEntry))
    (entry : ConfigEntry) (env : SetupEnv) (devs : List Device)
    (h : env.devices_result = Except.ok devs) :
    (async_setup_entry hassData entry env).outcome = SetupOutcome.ok
  ∧ storeGet (async_setup_entry hassData entry env).new_data entry.entry_id
      = some { account := if entry.data.region = some "CN"
                          then Account.dysonAccountCN entry.data.auth
                          else Account.dysonAccount entry.data.auth
               devices := devs } := by
  refine ⟨?_, ?_⟩
  · simp [async_setup_entry, h]
  · simp [async_setup_entry, h, storeGet_storeSet]

theorem setup_stores_account_and_devices_witness :
    (async_setup_entry []
        { entry_id := "e1", unique_id := none, title := "t"
          data := { region := some "CN", auth := "a" } }
        { devices_result := Except.ok ["dev1"] }).outcome = SetupOutcome.ok
  ∧ storeGet (async_setup_entry []
        { entry_id := "e1", unique_id := none, title := "t"
          data := { region := some "CN", auth := "a" } }
        { devices_result := Except.ok ["dev1"] }).new_data "e1"
      = some { account := Account.dysonAccountCN "a", devices := ["dev1"] } :=
  setup_stores_account_and_devices []
    { entry_id := "e1", unique_id := none, title := "t"
      data := { region := some "CN", auth := "a" } }
    { devices_result := Except.ok ["dev1"] } ["dev1"] rfl

/-- C9: the mobile step normalises the submitted number — prepending
`"+86"` exactly when it does not start with `"+"` — before the login call;
the normalised form is what gets stored in `_mobile` and what appears in
the title of the entry later created by the mobile OTP step. -/
theorem mobile_number_normalization (s : FlowState) (m reg otp auth : String)
    (env : MobileEnv) (v : MobileVerify)
    (hr : s._region = some reg)
    (hl : env.login_mobile_otp (normalizeMobile m) = Except.ok v)
    (hv : v otp = Except.ok auth) :
    ((async_step_mobile s (some { mobile := m }) env).1._mobile = some (normalizeMobile m))
  ∧ ((async_step_mobile s (some { mobile := m }) env).2 = FlowResult.show_form "mobile_otp" [])
  ∧ ((async_step_mobile_otp (async_step_mobile s (some { mobile := m }) env).1
        (some { otp := otp })).2
      = FlowResult.create_entry (normalizeMobile m ++ " (" ++ reg ++ ")")
          { region := some reg, auth := auth })
  ∧ (pyStartsWith m "+" = true → normalizeMobile m = m)
  ∧ (pyStartsWith m "+" = false → normalizeMobile m = "+86" ++ m) := by
  refine ⟨?_, ?_, ?_, ?_, ?_⟩
  · simp [async_step_mobile, async_step_mobile_otp, hl]
  · simp [async_step_mobile, async_step_mobile_otp, hl]
  · simp [async_step_mobile, hl, async_step_mobile_otp, hv, pyStr, hr]
  · intro h; simp [normalizeMobile, h]
  · intro h; simp [normalizeMobile, h]

theorem mobile_number_normalization_witness :
    ((async_step_mobile
        { _region := some "CN", _mobile := none, _email := none, _verify := none }
        (some { mobile := "13800138000" })
        { current_entries := []
          login_mobile_otp := fun _ => Except.ok fun _ => Except.ok "AUTH" }).1._mobile
      = some (normalizeMobile "13800138000"))
  ∧ ((async_step_mobile
        { _region := some "CN", _mobile := none, _email := none, _verify := none }
        (some { mobile := "13800138000" })
        { current_entries := []
          login_mobile_otp := fun _ => Except.ok fun _ => Except.ok "AUTH" }).2
      = FlowResult.show_form "mobile_otp" [])
  ∧ ((async_step_mobile_otp
        (async_step_mobile
          { _region := some "CN", _mobile := none, _email := none, _verify := none }
          (some { mobile := "13800138000" })
          { current_entries := []
            login_mobile_otp := fun _ => Except.ok fun _ => Except.ok "AUTH" }).1
        (some { otp := "000000" })).2
      = FlowResult.create_entry (normalizeMobile "13800138000" ++ " (" ++ "CN" ++ ")")
          { region := some "CN", auth := "AUTH" })
  ∧ (pyStartsWith "13800138000" "+" = true → normalizeMobile "13800138000" = "13800138000")
  ∧ (pyStartsWith "13800138000" "+" = false
      → normalizeMobile "13800138000" = "+86" ++ "13800138000") :=
  mobile_number_normalization
    { _region := some "CN", _mobile := none, _email := none, _verify := none }
    "13800138000" "CN" "000000" "AUTH"
    { current_entries := []
      login_mobile_otp := fun _ => Except.ok fun _ => Except.ok "AUTH" }
    (fun _ => Except.ok "AUTH") rfl rfl rfl

/-- C10: `async_unload_entry` always returns `True` and leaves all state
unchanged; in particular every key of the process-wide store (account
client and device list included) looks up to the same value afterwards. -/
theorem unload_entry_no_op (hassData : List (String × StoredEntry)) (entry : ConfigEntry) :
    async_unload_entry hassData entry = (hassData, true)
  ∧ ∀ k, storeGet (async_unload_entry hassData entry).1 k = storeGet hassData k :=
  ⟨rfl, fun _ => rfl⟩

/-- C1 counterexample: on the mobile branch the flow performs no
uniqueness check. With an existing entry already created for the very same
identifier `+8613800138000`, a mobile session for that number does not
abort: the login call runs, its verification callable is stored and then
invoked by the OTP step, and a second completed entry for the same
identifier is produced. -/
theorem mobile_branch_duplicate_not_rejected :
    ((async_step_mobile
        { _region := some "CN", _mobile := none, _email := none, _verify := none }
        (some { mobile := "13800138000" })
        { current_entries :=
            [{ entry_id := "e1", unique_id := none, title := "+8613800138000 (CN)"
               data := { region := some "CN", auth := "auth0" } }]
          login_mobile_otp := fun _ => Except.ok fun _ => Except.ok "auth1" }).2
      ≠ FlowResult.abort "already_configured")
  ∧ ((async_step_mobile_otp
        (async_step_mobile
          { _region := some "CN", _mobile := none, _email := none, _verify := none }
          (some { mobile := "13800138000" })
          { current_entries :=
              [{ entry_id := "e1", unique_id := none, title := "+8613800138000 (CN)"
                 data := { region := some "CN", auth := "auth0" } }]
            login_mobile_otp := fun _ => Except.ok fun _ => Except.ok "auth1" }).1
        (some { otp := "000000" })).2
      = FlowResult.create_entry "+8613800138000 (CN)"
          { region := some "CN", auth := "auth1" }) :=
  ⟨by decide, rfl⟩

/-- C1 amended: the uniqueness check guards only the email branch — there,
a submitted email whose `global_<email>` unique id matches an existing
entry aborts the session with `already_configured` before any verification
callable is stored or invoked — while the mobile branch performs no
uniqueness check at all: its behaviour is identical whatever the set of
existing entries. -/
theorem uniqueness_check_on_email_branch_only (s : FlowState) (email : String)
    (env : EmailEnv) (entries1 entries2 : List ConfigEntry)
    (g : String → Except DysonError MobileVerify) (mi : Option MobileInput)
    (hdup : (env.current_entries.any fun e => e.unique_id == some ("global_" ++ email)) = true) :
    (async_step_email s (some { email := email }) env
      = (s, FlowResult.abort "already_configured"))
  ∧ ((async_step_email s (some { email := email }) env).1._verify = s._verify)
  ∧ (async_step_mobile s mi { current_entries := entries1, login_mobile_otp := g }
      = async_step_mobile s mi { current_entries := entries2, login_mobile_otp := g }) := by
  have h1 : async_step_email s (some { email := email }) env
      = (s, FlowResult.abort "already_configured") := by
    simp [async_step_email, hdup]
  refine ⟨h1, ?_, ?_⟩
  · rw [h1]
  · cases mi <;> rfl

theorem uniqueness_check_on_email_branch_only_witness :
    (async_step_email initFlowState (some { email := "a@b.c" })
        { current_entries := [{ entry_id := "e1", unique_id := some "global_a@b.c", title := "t"
                                data := { region := some "GB", auth := "auth0" } }]
          login_email_otp := fun _ _ => Except.error DysonError.networkError }
      = (initFlowState, FlowResult.abort "already_configured"))
  ∧ ((async_step_email initFlowState (some { email := "a@b.c" })
        { current_entries := [{ entry_id := "e1", unique_id := some "global_a@b.c", title := "t"
                                data := { region := some "GB", auth := "auth0" } }]
          login_email_otp := fun _ _ => Except.error DysonError.networkError }).1._verify
      = initFlowState._verify)
  ∧ (async_step_mobile initFlowState (some { mobile := "1" })
        { current_entries := []
          login_mobile_otp := fun _ => Except.error DysonError.otpTooFrequently }
      = async_step_mobile initFlowState (some { mobile := "1" })
        { current_entries := [{ entry_id := "e1", unique_id := some "global_a@b.c", title := "t"
                                data := { region := some "GB", auth := "auth0" } }]
          login_mobile_otp := fun _ => Except.error DysonError.otpTooFrequently }) :=
  uniqueness_check_on_email_branch_only initFlowState "a@b.c"
    { current_entries := [{ entry_id := "e1", unique_id := some "global_a@b.c", title := "t"
                            data := { region := some "GB", auth := "auth0" } }]
      login_email_otp := fun _ _ => Except.error DysonError.networkError }
    []
    [{ entry_id := "e1", unique_id := some "global_a@b.c", title := "t"
       data := { region := some "GB", auth := "auth0" } }]
    (fun _ => Except.error DysonError.otpTooFrequently)
    (some { mobile := "1" })
    (by decide)

/-- C2 counterexample: a `DysonNetworkError` raised by `login_mobile_otp`
on the mobile step is not caught and not mapped to any form error: the
exception propagates out of the step instead of the `mobile` form being
redisplayed with `cannot_connect`. -/
theorem mobile_network_error_propagates :
    ((async_step_mobile initFlowState (some { mobile := "+8613800138000" })
        { current_entries := []
          login_mobile_otp := fun _ => Except.error DysonError.networkError }).2
      = FlowResult.uncaught (PyExc.dyson DysonError.networkError))
  ∧ ((async_step_mobile initFlowState (some { mobile := "+8613800138000" })
        { current_entries := []
          login_mobile_otp := fun _ => Except.error DysonError.networkError }).2
      ≠ FlowResult.show_form "mobile" [("base", "cannot_connect")]) :=
  ⟨rfl, by decide⟩

/-- C2 amended: each identifier-entry step catches and maps only its own
exceptions, redisplaying the same step with the mapped error code: the
email step maps `DysonNetworkError` to `cannot_connect` and
`DysonInvalidAccountStatus` to `email_not_registered`, and the mobile step
maps `DysonOTPTooFrequently` to `otp_too_frequent`; other SDK exceptions
propagate (see the counterexample). -/
theorem login_initiation_error_mapping (s : FlowState) (email m : String) :
    (∀ env : EmailEnv,
        (env.current_entries.any fun e => e.unique_id == some ("global_" ++ email)) = false →
        env.login_email_otp email s._region = Except.error DysonError.networkError →
        async_step_email s (some { email := email }) env
          = (s, FlowResult.show_form "email" [("base", "cannot_connect")]))
  ∧ (∀ env : EmailEnv,
        (env.current_entries.any fun e => e.unique_id == some ("global_" ++ email)) = false →
        env.login_email_otp email s._region = Except.error DysonError.invalidAccountStatus →
        async_step_email s (some { email := email }) env
          = (s, FlowResult.show_form "email" [("base", "email_not_registered")]))
  ∧ (∀ env : MobileEnv,
        env.login_mobile_otp (normalizeMobile m) = Except.error DysonError.otpTooFrequently →
        async_step_mobile s (some { mobile := m }) env
          = (s, FlowResult.show_form "mobile" [("base", "otp_too_frequent")])) := by
  refine ⟨?_, ?_, ?_⟩
  · intro env hnd hl
    simp [async_step_email, hnd, hl]
  · intro env hnd hl
    simp [async_step_email, hnd, hl]
  · intro env hl
    simp [async_step_mobile, hl]

theorem login_initiation_error_mapping_witness :
    (async_step_email initFlowState (some { email := "a@b.c" })
        { current_entries := []
          login_email_otp := fun _ _ => Except.error DysonError.networkError }
      = (initFlowState, FlowResult.show_form "email" [("base", "cannot_connect")]))
  ∧ (async_step_email initFlowState (some { email := "a@b.c" })
        { current_entries := []
          login_email_otp := fun _ _ => Except.error DysonError.invalidAccountStatus }
      = (initFlowState, FlowResult.show_form "email" [("base", "email_not_registered")]))
  ∧ (async_step_mobile initFlowState (some { mobile := "13800138000" })
        { current_entries := []
          login_mobile_otp := fun _ => Except.error DysonError.otpTooFrequently }
      = (initFlowState, FlowResult.show_form "mobile" [("base", "otp_too_frequent")])) :=
  ⟨(login_initiation_error_mapping initFlowState "a@b.c" "13800138000").1
      { current_entries := []
        login_email_otp := fun _ _ => Except.error DysonError.networkError } rfl rfl,
   (login_initiation_error_mapping initFlowState "a@b.c" "13800138000").2.1
      { current_entries := []
        login_email_otp := fun _ _ => Except.error DysonError.invalidAccountStatus } rfl rfl,
   (login_initiation_error_mapping initFlowState "a@b.c" "13800138000").2.2
      { current_entries := []
        login_mobile_otp := fun _ => Except.error DysonError.otpTooFrequently } rfl⟩
